import Mathlib

/-!
Verification development for the MCP Gateway CDK stack.

This file gives a shallow embedding of the stack's construction logic:
the deterministic identifier generator (SHA-256 hex digests truncated to
ten characters), the schema template processor (JavaScript
`String.prototype.replace` with a global regex and a string replacement,
including the ECMAScript dollar-escape expansion of the replacement),
the S3 URI parser, and the synthesis trace of the top-level stack
(`McpGatewayStack`), the gateway construct (`AgentCoreGateway`) and the
per-target construct (`IntegrationTarget`).

Machine words are modelled as `Nat` reduced modulo `2 ^ 32`.  JavaScript
string falsiness (the `x || d` default idiom) is modelled explicitly:
both `undefined` and the empty string select the default.
-/

set_option maxRecDepth 100000

/-! ## JavaScript string helpers -/

/-- Models the JavaScript idiom `x || d` for an optional string: both
`undefined` and the empty string are falsy and select the default. -/
def jsOr (o : Option String) (d : String) : String :=
  match o with
  | none => d
  | some s => if s = "" then d else s

/-- Models `String.prototype.startsWith` via list prefixes. -/
def jsStartsWith (s pat : String) : Bool :=
  pat.toList.isPrefixOf s.toList

/-- Models `String.prototype.toLowerCase` on ASCII data. -/
def jsToLower (s : String) : String :=
  String.mk (s.toList.map Char.toLower)

/-- Models `String.prototype.toUpperCase` on ASCII data. -/
def jsToUpper (s : String) : String :=
  String.mk (s.toList.map Char.toUpper)

/-- Models `String.prototype.replace` with a plain string pattern: only
the first occurrence of the pattern is replaced. -/
def replaceFirstList (pat rep : List Char) : List Char → List Char
  | [] => []
  | c :: cs =>
    if pat.isPrefixOf (c :: cs) then rep ++ (c :: cs).drop pat.length
    else c :: replaceFirstList pat rep cs

/-- String-level wrapper for `replaceFirstList`. -/
def jsReplaceFirst (s pat rep : String) : String :=
  String.mk (replaceFirstList pat.toList rep.toList s.toList)

/-! ## SHA-256 over `Nat`, words reduced modulo `2 ^ 32` -/

/-- Reduce to a 32-bit word. -/
def w32 (n : Nat) : Nat := n % 4294967296

/-- Right rotation of a 32-bit word. -/
def rotr32 (k w : Nat) : Nat := w32 ((w >>> k) ||| (w <<< (32 - k)))

/-- The SHA-256 `Ch` function. -/
def shaCh (e f g : Nat) : Nat := (e &&& f) ^^^ ((e ^^^ 0xFFFFFFFF) &&& g)

/-- The SHA-256 `Maj` function. -/
def shaMaj (a b c : Nat) : Nat := (a &&& b) ^^^ (a &&& c) ^^^ (b &&& c)

/-- The SHA-256 big Sigma-0 function. -/
def bigSigma0 (a : Nat) : Nat := rotr32 2 a ^^^ rotr32 13 a ^^^ rotr32 22 a

/-- The SHA-256 big Sigma-1 function. -/
def bigSigma1 (e : Nat) : Nat := rotr32 6 e ^^^ rotr32 11 e ^^^ rotr32 25 e

/-- The SHA-256 small sigma-0 function. -/
def smallSigma0 (x : Nat) : Nat := rotr32 7 x ^^^ rotr32 18 x ^^^ (x >>> 3)

/-- The SHA-256 small sigma-1 function. -/
def smallSigma1 (x : Nat) : Nat := rotr32 17 x ^^^ rotr32 19 x ^^^ (x >>> 10)

/-- The 64 SHA-256 round constants. -/
def sha256K : List Nat :=
  [1116352408, 1899447441, 3049323471, 3921009573, 961987163, 1508970993,
   2453635748, 2870763221, 3624381080, 310598401, 607225278, 1426881987,
   1925078388, 2162078206, 2614888103, 3248222580, 3835390401, 4022224774,
   264347078, 604807628, 770255983, 1249150122, 1555081692, 1996064986,
   2554220882, 2821834349, 2952996808, 3210313671, 3336571891, 3584528711,
   113926993, 338241895, 666307205, 773529912, 1294757372, 1396182291,
   1695183700, 1986661051, 2177026350, 2456956037, 2730485921, 2820302411,
   3259730800, 3345764771, 3516065817, 3600352804, 4094571909, 275423344,
   430227734, 506948616, 659060556, 883997877, 958139571, 1322822218,
   1537002063, 1747873779, 1955562222, 2024104815, 2227730452, 2361852424,
   2428436474, 2756734187, 3204031479, 3329325298]

/-- The SHA-256 working state: eight 32-bit words. -/
structure Hash8 where
  a : Nat
  b : Nat
  c : Nat
  d : Nat
  e : Nat
  f : Nat
  g : Nat
  h : Nat
deriving DecidableEq, Repr

/-- The SHA-256 initial hash value. -/
def sha256Init : Hash8 :=
  ⟨1779033703, 3144134277, 1013904242, 2773480762,
   1359893119, 2600822924, 528734635, 1541459225⟩

/-- One SHA-256 compression round, consuming a pair of round constant
and schedule word. -/
def sha256Round (st : Hash8) (kw : Nat × Nat) : Hash8 :=
  let t1 := w32 (st.h + bigSigma1 st.e + shaCh st.e st.f st.g + kw.1 + kw.2)
  let t2 := w32 (bigSigma0 st.a + shaMaj st.a st.b st.c)
  ⟨w32 (t1 + t2), st.a, st.b, st.c, w32 (st.d + t1), st.e, st.f, st.g⟩

/-- Group a byte list into big-endian 32-bit words. -/
def bytesToWords : List Nat → List Nat
  | b0 :: b1 :: b2 :: b3 :: rest =>
    ((((b0 <<< 8) ||| b1) <<< 8 ||| b2) <<< 8 ||| b3) :: bytesToWords rest
  | _ => []

/-- Extend the sixteen message words to the 64-entry message schedule. -/
def msgSchedule (ws : List Nat) : List Nat :=
  (List.range 48).foldl
    (fun acc _ =>
      acc ++ [w32 (smallSigma1 (acc.getD (acc.length - 2) 0) + acc.getD (acc.length - 7) 0 +
                   smallSigma0 (acc.getD (acc.length - 15) 0) + acc.getD (acc.length - 16) 0)])
    ws

/-- SHA-256 compression of one 64-byte block into the running state. -/
def sha256Compress (st : Hash8) (block : List Nat) : Hash8 :=
  let ws := msgSchedule (bytesToWords block)
  let r := (sha256K.zip ws).foldl sha256Round st
  ⟨w32 (st.a + r.a), w32 (st.b + r.b), w32 (st.c + r.c), w32 (st.d + r.d),
   w32 (st.e + r.e), w32 (st.f + r.f), w32 (st.g + r.g), w32 (st.h + r.h)⟩

/-- SHA-256 message padding: a `0x80` byte, zeros to 56 mod 64, and the
bit length as an eight-byte big-endian integer. -/
def padMessage (msg : List Nat) : List Nat :=
  let len := msg.length
  let zeros := (119 - len % 64) % 64
  msg ++ [0x80] ++ List.replicate zeros 0 ++
    (List.range 8).map (fun i => ((8 * len) >>> (8 * (7 - i))) &&& 0xFF)

/-- Split a byte list into 64-byte blocks; the fuel argument is an
upper bound on the number of steps, so structural recursion (and hence
kernel reduction) is available.  Each step consumes at least one byte,
so `l.length` fuel always suffices. -/
def toBlocksAux : Nat → List Nat → List (List Nat)
  | 0, _ => []
  | _, [] => []
  | fuel + 1, x :: xs => (x :: xs).take 64 :: toBlocksAux fuel ((x :: xs).drop 64)

/-- Split a (padded) byte list into 64-byte blocks. -/
def toBlocks (l : List Nat) : List (List Nat) :=
  toBlocksAux l.length l

/-- UTF-8 encoding of one character (Node's default string encoding
for `hash.update`). -/
def utf8EncodeChar (c : Char) : List Nat :=
  let n := c.toNat
  if n < 0x80 then [n]
  else if n < 0x800 then [0xC0 ||| (n >>> 6), 0x80 ||| (n &&& 0x3F)]
  else if n < 0x10000 then
    [0xE0 ||| (n >>> 12), 0x80 ||| ((n >>> 6) &&& 0x3F), 0x80 ||| (n &&& 0x3F)]
  else
    [0xF0 ||| (n >>> 18), 0x80 ||| ((n >>> 12) &&& 0x3F),
     0x80 ||| ((n >>> 6) &&& 0x3F), 0x80 ||| (n &&& 0x3F)]

/-- UTF-8 byte sequence of a string. -/
def utf8Bytes (s : String) : List Nat :=
  s.toList.foldr (fun c acc => utf8EncodeChar c ++ acc) []

/-- The SHA-256 state after absorbing a string. -/
def sha256Of (s : String) : Hash8 :=
  (toBlocks (padMessage (utf8Bytes s))).foldl sha256Compress sha256Init

/-- One lowercase hexadecimal digit. -/
def hexDigit (n : Nat) : Char :=
  Char.ofNat (if n % 16 < 10 then 48 + n % 16 else 87 + n % 16)

/-- Eight-character lowercase hexadecimal rendering of a 32-bit word. -/
def toHex8 (w : Nat) : List Char :=
  (List.range 8).map (fun i => hexDigit (w >>> (4 * (7 - i))))

/-- Characters of the 64-character lowercase hex digest, as produced by
Node's `hash.digest('hex')`. -/
def sha256HexChars (s : String) : List Char :=
  let st := sha256Of s
  toHex8 st.a ++ toHex8 st.b ++ toHex8 st.c ++ toHex8 st.d ++
  toHex8 st.e ++ toHex8 st.f ++ toHex8 st.g ++ toHex8 st.h

/-- Lowercase hex digest of a string, as a string. -/
def sha256hex (s : String) : String :=
  String.mk (sha256HexChars s)

/-- FIPS 180-4 test vector: digest of the empty string. -/
theorem sha256hex_empty :
    sha256hex "" = "e3b0c44298fc1c149afbf4c8996fb92427ae41e4649b934ca495991b7852b855" := by
  decide

/-- FIPS 180-4 test vector: digest of "abc". -/
theorem sha256hex_abc :
    sha256hex "abc" = "ba7816bf8f01cfea414140de5dae2223b00361a396177a9cb410ff61f20015ad" := by
  decide

/-! ## Deterministic identifier generators

The stack derives short identifiers by hashing a semantic key with
SHA-256, rendering the digest as lowercase hex, truncating to ten
characters, and mapping case (`digest('hex').substring(0, 10)` followed
by `.toUpperCase()` or `.toLowerCase()` depending on the site). -/

/-- Ten-character truncation of the hex digest of a semantic key. -/
def hashId10 (key : String) : List Char :=
  (sha256HexChars key).take 10

/-- The deterministic identifier generator: hex digest truncated to ten
characters, as a string. -/
def deterministicId (key : String) : String :=
  String.mk (hashId10 key)

/-- The execution-role unique id: SHA-256 of `stackName ++ "-execution-role"`,
hex, first ten characters, uppercased. -/
def roleUniqueId (stackName : String) : String :=
  String.mk ((hashId10 (stackName ++ "-execution-role")).map Char.toUpper)

/-- The schema-processor physical id: SHA-256 of
`stackName ++ "-" ++ type ++ "-schema"`, hex, first ten characters,
lowercased. -/
def schemaProcessorId (stackName ttype : String) : String :=
  String.mk ((hashId10 (stackName ++ "-" ++ ttype ++ "-schema")).map Char.toLower)

/-- The per-target unique id: SHA-256 of `targetNameBase ++ "-target-id"`,
hex, first ten characters, uppercased. -/
def integrationUniqueId (targetNameBase : String) : String :=
  String.mk ((hashId10 (targetNameBase ++ "-target-id")).map Char.toUpper)

/-! ## Schema template substitution

`generateProcessedSchema` runs
`templateContent.replace(/\x7b\x7bBASE_URL\x7d\x7d/g, baseUrl)`.
JavaScript string replacement expands ECMAScript substitution escapes in
the replacement string: `$$` is a literal dollar, `$&` the matched
substring, a dollar followed by a backquote the part of the input before
the match, and a dollar followed by a single quote the part after the
match.  `expandSub` implements that expansion; `replaceAuxF` scans the
input left to right replacing each non-overlapping occurrence. -/

/-- The placeholder token of the schema templates. -/
def basePat : List Char := "\x7b\x7bBASE_URL\x7d\x7d".toList

/-- ECMAScript `GetSubstitution` for a replacement string with no capture
groups: `m` is the matched substring, `b` the input before the match and
`a` the input after the match. -/
def expandSub (m b a : List Char) : List Char → List Char
  | [] => []
  | [c] => [c]
  | c :: d :: r =>
    if c = '$' then
      if d = '$' then '$' :: expandSub m b a r
      else if d = '&' then m ++ expandSub m b a r
      else if d = Char.ofNat 96 then b ++ expandSub m b a r
      else if d = Char.ofNat 39 then a ++ expandSub m b a r
      else '$' :: d :: expandSub m b a r
    else c :: expandSub m b a (d :: r)

/-- Global left-to-right replacement scan.  The parameter `f` builds the
replacement text from the input before and after the current match; the
fuel argument makes the recursion structural, and the input length is
always enough fuel because every step consumes at least one character of
the remaining input (the pattern is nonempty). -/
def replaceAuxF (pat : List Char) (f : List Char → List Char → List Char) :
    Nat → List Char → List Char → List Char
  | 0, _, rest => rest
  | _ + 1, _, [] => []
  | fuel + 1, pre, c :: cs =>
    if pat.isPrefixOf (c :: cs) then
      f pre ((c :: cs).drop pat.length) ++
        replaceAuxF pat f fuel (pre ++ pat) ((c :: cs).drop pat.length)
    else
      c :: replaceAuxF pat f fuel (pre ++ [c]) cs

/-- The template substitution as the code performs it: every occurrence
of the placeholder is replaced by the ECMAScript expansion of the
supplied value. -/
def substituteBaseUrlList (template repl : List Char) : List Char :=
  replaceAuxF basePat (fun pre after => expandSub basePat pre after repl)
    template.length [] template

/-- String-level wrapper: the processed schema content. -/
def substituteBaseUrl (template baseUrl : String) : String :=
  String.mk (substituteBaseUrlList template.toList baseUrl.toList)

/-- Modelled from the spec's words, for refinement comparison: every
occurrence of the placeholder is replaced by the supplied value itself. -/
def naiveReplaceAllList (template repl : List Char) : List Char :=
  replaceAuxF basePat (fun _ _ => repl) template.length [] template

/-- String-level wrapper of the spec-level replacement. -/
def naiveReplaceAll (template value : String) : String :=
  String.mk (naiveReplaceAllList template.toList value.toList)

/-- Whether the pattern occurs anywhere in the list. -/
def containsPat (pat : List Char) : List Char → Bool
  | [] => pat.isPrefixOf []
  | c :: cs => pat.isPrefixOf (c :: cs) || containsPat pat cs

/-! ## S3 URI parsing

`IntegrationTarget` extracts bucket and key with
`uri.match(/^s3:\/\/([^\/]+)\/(.+)$/)`: the scheme prefix, a nonempty
run of non-slash characters, a slash, then at least one character; the
dot of the second group does not match line terminators. -/

/-- Line terminators that `.` does not match in a JavaScript regex
without the `s` flag. -/
def isLineTerm (c : Char) : Bool :=
  c = Char.ofNat 10 || c = Char.ofNat 13 || c = Char.ofNat 0x2028 || c = Char.ofNat 0x2029

/-- Parse an S3 URI into bucket and key per the source regex, returning
`none` exactly when the regex fails to match. -/
def parseS3Uri (uri : String) : Option (String × String) :=
  let l := uri.toList
  if ("s3://".toList).isPrefixOf l then
    let rest := l.drop 5
    let bucket := rest.takeWhile (fun c => c ≠ '/')
    let rem := rest.drop bucket.length
    match rem with
    | '/' :: key =>
      if bucket.isEmpty then none
      else if key.isEmpty then none
      else if key.all (fun c => !isLineTerm c) then some (String.mk bucket, String.mk key)
      else none
    | _ => none
  else none

/-- Sanity check: the substitution replaces several occurrences. -/
theorem substituteBaseUrl_example :
    substituteBaseUrl "\x7b\x7bBASE_URL\x7d\x7d/a \x7b\x7bBASE_URL\x7d\x7d/b" "https://x" =
      "https://x/a https://x/b" := by
  decide

/-- Sanity check: the parser splits bucket and key at the first slash. -/
theorem parseS3Uri_example :
    parseS3Uri "s3://bucket-name/key/path.json" = some ("bucket-name", "key/path.json") := by
  decide

/-! ## Configuration data model (from `mcp-gateway-stack.ts` and the
gateway construct file) -/

/-- Gateway authentication mode. -/
inductive AuthenticationType
  | JWT
  | IAM
deriving DecidableEq, Repr

/-- Per-target auth configuration.  The field `pfx` models the source
field `prefix` (a reserved word in Lean). -/
structure AuthConfig where
  parameterName : Option String
  pfx : Option String
deriving DecidableEq, Repr

/-- The `config` object of an integration target. -/
structure TargetConfigBody where
  apiKey : Option String
  baseUrl : Option String
  auth : Option AuthConfig
deriving DecidableEq, Repr

/-- One integration-target entry of the deployment configuration. -/
structure IntegrationTargetConfig where
  type : String
  enabled : Bool
  config : TargetConfigBody
deriving DecidableEq, Repr

/-- Props of the top-level stack. -/
structure McpGatewayStackProps where
  gatewayName : Option String
  gatewayDescription : Option String
  enableSemanticSearch : Option Bool
  exceptionLevel : Option String
  authenticationType : Option AuthenticationType
  integrationTargets : Option (List IntegrationTargetConfig)
  agentCoreSchemasBucket : Option String
deriving DecidableEq, Repr

/-- Deployment environment of one synthesis run: the stack name, AWS
account and region, the construct-tree address used for default names,
and the on-disk schema template files (path to content). -/
structure StackEnv where
  stackName : String
  account : String
  region : String
  nodeAddr : String
  templates : String → Option String

/-- Take the first `n` characters, modelling `substring(0, n)`. -/
def jsTake (s : String) (n : Nat) : String :=
  String.mk (s.toList.take n)

/-! ## Cognito user pool binder (`agent-core-cognito.ts`) -/

/-- Placeholder for the deploy-time user pool id token. -/
def tokenUserPoolId : String := "TOKEN_UserPoolId"

/-- Placeholder for the deploy-time user pool client id token. -/
def tokenClientId : String := "TOKEN_UserPoolClientId"

/-- Synthesis-relevant view of the Cognito user pool construct.  The
construct also declares a domain, resource server, client and four
construct-level outputs; those live and die with the construct and are
summarised by the single `cognitoUserPool` trace entry below. -/
structure CognitoPool where
  userPoolName : String
  clientName : String
  clientId : String
  discoveryUrl : String
deriving DecidableEq, Repr

/-- Elaborate the Cognito construct with the names the stack passes.
The discovery URL is built exactly as in the source:
`https://cognito-idp.REGION.amazonaws.com/POOLID/.well-known/openid-configuration`. -/
def mkCognitoPool (env : StackEnv) : CognitoPool :=
  { userPoolName := "McpGatewayUserPool-" ++ jsTake env.nodeAddr 8
    clientName := "McpGatewayClient-" ++ jsTake env.nodeAddr 8
    clientId := tokenClientId
    discoveryUrl := "https://cognito-idp." ++ env.region ++ ".amazonaws.com/" ++
      tokenUserPoolId ++ "/.well-known/openid-configuration" }

/-- The authorizer configuration the binder hands to the gateway. -/
structure JwtAuthorizerConfig where
  discoveryUrl : String
  allowedClients : List String
deriving DecidableEq, Repr

/-- `AgentCoreCognitoUserPool.createJwtAuthorizerConfig`. -/
def createJwtAuthorizerConfig (p : CognitoPool) : JwtAuthorizerConfig :=
  { discoveryUrl := p.discoveryUrl, allowedClients := [p.clientId] }

/-! ## Gateway construct (`AgentCoreGateway`) -/

/-- The construct's `CustomJWTAuthorizerConfig` interface. -/
structure CustomJWTAuthorizerConfigTS where
  discoveryUrl : String
  allowedAudience : Option (List String)
  allowedClients : Option (List String)
deriving DecidableEq, Repr

/-- The `customJWTAuthorizer` block of the `authorizerConfiguration`
parameter of the create and update calls. -/
structure CustomJWTAuthorizerBlock where
  discoveryUrl : String
  allowedAudience : Option (List String)
  allowedClients : Option (List String)
deriving DecidableEq, Repr

/-- The `mcp` protocol configuration object sent on create. -/
structure McpProtocolConfig where
  supportedVersions : List String
  searchType : Option String
  instructions : Option String
deriving DecidableEq, Repr

/-- Parameters of the `CreateGateway` control-plane call. -/
structure GatewayCreateParams where
  name : String
  description : Option String
  protocolType : String
  protocolConfiguration : McpProtocolConfig
  roleArn : String
  authorizerType : String
  authorizerConfiguration : CustomJWTAuthorizerBlock
  exceptionLevel : Option String
  kmsKeyArn : Option String
deriving DecidableEq, Repr

/-- Synthesis-time failures.  `typeErrorUndefined` models the JavaScript
TypeError raised when a property of `undefined` is read. -/
inductive JsError
  | typeErrorUndefined
  | baseUrlRequired (type : String)
  | templateNotFound (path : String)
  | invalidS3Uri (uri : String)
deriving DecidableEq, Repr

/-- Props of the `AgentCoreGateway` construct.  The source declares
`jwtAuthorizer` as required, but the stack passes a possibly-undefined
value, so the model makes the field optional and the construct body
dereferences it. -/
structure AgentCoreGatewayProps where
  gatewayName : Option String
  description : Option String
  executionRoleArn : String
  jwtAuthorizer : Option CustomJWTAuthorizerConfigTS
  enableSemanticSearch : Option Bool
  exceptionLevel : Option String
  kmsKeyArn : Option String
  instructions : Option String
deriving DecidableEq, Repr

/-- Placeholder for `cdk.Names.uniqueResourceName`. -/
def tokenUniqueResourceName : String := "TOKEN_uniqueResourceName"

/-- Truthiness filter for an optional string, as used by
`if (props.instructions)`. -/
def jsTruthyStr (o : Option String) : Option String :=
  match o with
  | none => none
  | some s => if s = "" then none else some s

/-- Build the `CreateGateway` parameters exactly as the construct body
does.  Reading `props.jwtAuthorizer.discoveryUrl` when the stack passed
no authorizer raises a TypeError, modelled as `Except.error`. -/
def agentCoreGatewayCreateParams (props : AgentCoreGatewayProps) :
    Except JsError GatewayCreateParams :=
  let protocolConfiguration : McpProtocolConfig :=
    { supportedVersions := ["2025-03-26"]
      searchType := if props.enableSemanticSearch = some true then some "SEMANTIC" else none
      instructions := jsTruthyStr props.instructions }
  let gatewayName := props.gatewayName.getD tokenUniqueResourceName
  match props.jwtAuthorizer with
  | none => .error .typeErrorUndefined
  | some j =>
    .ok { name := gatewayName
          description := props.description
          protocolType := "MCP"
          protocolConfiguration := protocolConfiguration
          roleArn := props.executionRoleArn
          authorizerType := "CUSTOM_JWT"
          authorizerConfiguration :=
            { discoveryUrl := j.discoveryUrl
              allowedAudience := j.allowedAudience
              allowedClients := j.allowedClients }
          exceptionLevel := props.exceptionLevel
          kmsKeyArn := props.kmsKeyArn }

/-- Deploy-time response fields of the created gateway. -/
structure GatewayInfo where
  gatewayId : String
  gatewayArn : String
  gatewayUrl : String
deriving DecidableEq, Repr

/-- Placeholder tokens for `getResponseField` on the gateway resource. -/
def gatewayResponseTokens : GatewayInfo :=
  ⟨"TOKEN_gatewayId", "TOKEN_gatewayArn", "TOKEN_gatewayUrl"⟩

/-! ## Integration target construct (`IntegrationTarget` /
`AgentCoreGatewayTarget`) -/

/-- The `apiKeyCredentialProvider` block of a credential provider
configuration.  The field `credentialPfx` models the source field
`credentialPrefix`. -/
structure ApiKeyCredentialProviderBlock where
  providerArn : String
  credentialLocation : String
  credentialParameterName : String
  credentialPfx : Option String
deriving DecidableEq, Repr

/-- The `credentialProvider` union block (`apiKeyCredentialProvider`
or `oauth2CredentialProvider`). -/
structure CredentialProviderBlock where
  apiKeyCredentialProvider : Option ApiKeyCredentialProviderBlock
  oauth2CredentialProviderArn : Option String
deriving DecidableEq, Repr

/-- One entry of `credentialProviderConfigurations`. -/
structure CredentialProviderConfiguration where
  credentialProviderType : String
  credentialProvider : Option CredentialProviderBlock
deriving DecidableEq, Repr

/-- Parameters of the `CreateGatewayTarget` call.  The target
configuration is the `mcp.openApiSchema.s3.uri` wrapping of the schema
location, summarised here by the URI itself. -/
structure TargetRegistration where
  gatewayIdentifier : String
  name : String
  description : String
  openApiSchemaS3Uri : String
  credentialProviderConfigurations : List CredentialProviderConfiguration
deriving DecidableEq, Repr

/-- Nodes of the per-target dependency graph. -/
inductive NodeId
  | secretNode
  | providerNode
  | targetNode
  | gatewayNode
deriving DecidableEq, Repr

/-- Resources and outputs declared during synthesis, in declaration
order. -/
inductive Declared
  | cognitoUserPool (userPoolName clientName : String)
  | s3Bucket (bucketName : String)
  | executionRole (roleName : String)
  | gatewayResource (params : GatewayCreateParams)
  | schemaProcessor (physicalId bucket key body : String)
  | secret (name value : String)
  | credentialProvider (name apiKey : String)
  | gatewayTargetResource (reg : TargetRegistration)
  | output (key value : String)
deriving DecidableEq, Repr

/-- Props of the `IntegrationTarget` construct. -/
structure IntegrationTargetProps where
  targetName : Option String
  description : Option String
  openApiSchemaS3Uri : String
  apiKey : Option String
  auth : Option AuthConfig
deriving DecidableEq, Repr

/-- Successful result of elaborating an `IntegrationTarget`: the target
registration and the declared dependency edges (dependent, dependency). -/
structure ITResult where
  registration : TargetRegistration
  deps : List (NodeId × NodeId)
deriving DecidableEq, Repr

/-- Elaborate the `IntegrationTarget` construct body in source order:
derive the deterministic id from the target name, declare the secret,
compute the auth defaults, declare the credential provider, synthesise
the provider ARN by naming convention, parse the schema S3 URI (raising
on mismatch), then declare the gateway target with its dependency edges
on the gateway, the secret and the credential provider. -/
def elabIntegrationTarget (env : StackEnv) (gw : GatewayInfo)
    (props : IntegrationTargetProps) : List Declared × Except JsError ITResult :=
  let targetNameBase := jsOr props.targetName "integration"
  let uniqueId := integrationUniqueId targetNameBase
  let secretName := jsToLower targetNameBase ++ "-api-key-" ++ uniqueId ++ "1"
  let sec : Declared := .secret secretName (jsOr props.apiKey "dummy-api-key")
  let parameterName := jsOr (props.auth.bind (fun a => a.parameterName)) "Authorization"
  let pfx := jsOr (props.auth.bind (fun a => a.pfx)) "Basic"
  let providerName := jsToLower targetNameBase ++ "_api_key_" ++ uniqueId
  let prov : Declared := .credentialProvider providerName (jsOr props.apiKey "dummy-api-key")
  let providerArn := "arn:aws:bedrock-agentcore:" ++ env.region ++ ":" ++ env.account ++
    ":token-vault/default/apikeycredentialprovider/" ++ providerName
  match parseS3Uri props.openApiSchemaS3Uri with
  | none => ([sec, prov], .error (.invalidS3Uri props.openApiSchemaS3Uri))
  | some _ =>
    let reg : TargetRegistration :=
      { gatewayIdentifier := gw.gatewayId
        name := targetNameBase ++ "-" ++ uniqueId
        description := jsOr props.description (targetNameBase ++ " MCP Server")
        openApiSchemaS3Uri := props.openApiSchemaS3Uri
        credentialProviderConfigurations :=
          [{ credentialProviderType := "API_KEY"
             credentialProvider := some
               { apiKeyCredentialProvider := some
                   { providerArn := providerArn
                     credentialLocation := "HEADER"
                     credentialParameterName := parameterName
                     credentialPfx := some pfx }
                 oauth2CredentialProviderArn := none } }] }
    ([sec, prov, .gatewayTargetResource reg],
     .ok { registration := reg
           deps := [(.targetNode, .gatewayNode), (.targetNode, .secretNode),
                    (.targetNode, .providerNode)] })

/-! ## Stack synthesis (`McpGatewayStack`) -/

/-- Path of the on-disk schema template for a custom target type
(directory components before `schemas` abstracted away). -/
def templatePathOf (type : String) : String :=
  "schemas/" ++ type ++ "-open-api.json"

/-- `generateProcessedSchema`: fail-fast validation of the base URL,
template lookup, placeholder substitution, and the schema-upload custom
resource keyed by the deterministic processor id. -/
def generateProcessedSchema (env : StackEnv) (bucketName : String)
    (t : IntegrationTargetConfig) : List Declared × Except JsError Unit :=
  match t.config.baseUrl with
  | none => ([], .error (.baseUrlRequired t.type))
  | some b =>
    if b = "" then ([], .error (.baseUrlRequired t.type))
    else
      match env.templates (templatePathOf t.type) with
      | none => ([], .error (.templateNotFound (templatePathOf t.type)))
      | some templateContent =>
        ([.schemaProcessor (schemaProcessorId env.stackName t.type) bucketName
            (t.type ++ "-open-api.json") (substituteBaseUrl templateContent b)],
         .ok ())

/-- Placeholder for the target id response field. -/
def tokenTargetId : String := "TOKEN_targetId"

/-- The `IntegrationTarget` props the stack builds in the pre-built
(`agentcore-` marker) branch: the target name is the type with the
marker stripped, the schema URI points into the shared schemas bucket,
and the auth header is fixed to Authorization / Basic. -/
def agentcoreProps (props : McpGatewayStackProps) (t : IntegrationTargetConfig) :
    IntegrationTargetProps :=
  { targetName := some (jsReplaceFirst t.type "agentcore-" "")
    description := some (jsReplaceFirst t.type "agentcore-" "" ++
      " AgentCore built-in integration")
    openApiSchemaS3Uri := "s3://" ++
      jsOr props.agentCoreSchemasBucket "amazonbedrockagentcore-built-sampleschemas" ++
      "/" ++ jsReplaceFirst t.type "agentcore-" "" ++ "-open-api.json"
    apiKey := t.config.apiKey
    auth := some { parameterName := some "Authorization", pfx := some "Basic" } }

/-- The `IntegrationTarget` props the stack builds in the custom branch:
the target name is the type itself, the schema URI points at the
processed schema in the stack's own bucket, and the auth configuration
is taken from the target configuration. -/
def customProps (bucketName : String) (t : IntegrationTargetConfig) :
    IntegrationTargetProps :=
  { targetName := some t.type
    description := some (t.type ++ " REST API integration")
    openApiSchemaS3Uri := "s3://" ++ bucketName ++ "/" ++ t.type ++ "-open-api.json"
    apiKey := t.config.apiKey
    auth := t.config.auth }

/-- The loop body of the stack's integration-target processing, for one
configured target: skipped when disabled; the pre-built branch when the
type carries the `agentcore-` marker; otherwise the custom branch with
schema materialisation first. -/
def processTarget (env : StackEnv) (gw : GatewayInfo) (bucketName : String)
    (props : McpGatewayStackProps) (t : IntegrationTargetConfig) :
    List Declared × Except JsError Unit :=
  if t.enabled then
    if jsStartsWith t.type "agentcore-" then
      match elabIntegrationTarget env gw (agentcoreProps props t) with
      | (ds, .error e) => (ds, .error e)
      | (ds, .ok _) => (ds ++ [.output (t.type ++ "TargetId") tokenTargetId], .ok ())
    else
      match generateProcessedSchema env bucketName t with
      | (ds, .error e) => (ds, .error e)
      | (ds, .ok _) =>
        match elabIntegrationTarget env gw (customProps bucketName t) with
        | (ds2, .error e) => (ds ++ ds2, .error e)
        | (ds2, .ok _) =>
          (ds ++ ds2 ++ [.output (t.type ++ "TargetId") tokenTargetId], .ok ())
  else ([], .ok ())

/-- Process the configured targets in order, stopping at the first
synthesis failure as a thrown exception would. -/
def processTargets (env : StackEnv) (gw : GatewayInfo) (bucketName : String)
    (props : McpGatewayStackProps) :
    List IntegrationTargetConfig → List Declared × Except JsError Unit
  | [] => ([], .ok ())
  | t :: ts =>
    match processTarget env gw bucketName props t with
    | (ds, .error e) => (ds, .error e)
    | (ds, .ok _) =>
      match processTargets env gw bucketName props ts with
      | (ds2, r) => (ds ++ ds2, r)

/-- The schema bucket name the stack sets explicitly. -/
def schemaBucketNameOf (env : StackEnv) : String :=
  "mcp-gateway-schemas-" ++ env.account ++ "-" ++ env.region ++ "-v3"

/-- String form of the authentication-type output value. -/
def authTypeString : AuthenticationType → String
  | .JWT => "JWT"
  | .IAM => "IAM"

/-- The gateway instructions text the stack passes (whitespace of the
template literal abstracted; only nonemptiness matters downstream). -/
def stackInstructions : String :=
  "This is an MCP Gateway with support for multiple integration targets."

/-- Placeholder for the execution role ARN token. -/
def tokenRoleArn : String := "TOKEN_roleArn"

/-- Elaborate the `McpGatewayStack` constructor in source order:
conditional Cognito binder, schema bucket, execution role, gateway
(with the authorizer selected from the authentication mode), the stack
outputs, then the configured integration targets.  The trace lists the
declared resources and outputs up to the first thrown error. -/
def elabStack (env : StackEnv) (props : McpGatewayStackProps) :
    List Declared × Except JsError Unit :=
  let authenticationType := props.authenticationType.getD .JWT
  let cognito : Option CognitoPool :=
    if authenticationType = .JWT then some (mkCognitoPool env) else none
  let cognitoDecls : List Declared :=
    match cognito with
    | some p => [.cognitoUserPool p.userPoolName p.clientName]
    | none => []
  let bucketName := schemaBucketNameOf env
  let roleName := "McpGatewayExecRole-" ++ roleUniqueId env.stackName
  let baseDecls := cognitoDecls ++ [.s3Bucket bucketName, .executionRole roleName]
  let jwtAuthorizerConfig : Option JwtAuthorizerConfig :=
    match authenticationType, cognito with
    | .JWT, some p => some (createJwtAuthorizerConfig p)
    | _, _ => none
  let gwProps : AgentCoreGatewayProps :=
    { gatewayName := some (jsOr props.gatewayName ("McpGateway-" ++ jsTake env.nodeAddr 8))
      description := some (jsOr props.gatewayDescription
        "MCP Gateway with multiple integration targets")
      executionRoleArn := tokenRoleArn
      jwtAuthorizer := jwtAuthorizerConfig.map (fun j =>
        { discoveryUrl := j.discoveryUrl
          allowedAudience := none
          allowedClients := some j.allowedClients })
      enableSemanticSearch := props.enableSemanticSearch
      exceptionLevel := props.exceptionLevel
      kmsKeyArn := none
      instructions := some stackInstructions }
  match agentCoreGatewayCreateParams gwProps with
  | .error e => (baseDecls, .error e)
  | .ok params =>
    let gw := gatewayResponseTokens
    let outputsA : List Declared :=
      [.output "McpGatewayId" gw.gatewayId,
       .output "McpGatewayArn" gw.gatewayArn,
       .output "McpGatewayUrl" gw.gatewayUrl]
    let discOut : List Declared :=
      match authenticationType, cognito with
      | .JWT, some p => [.output "CognitoDiscoveryUrl" p.discoveryUrl]
      | _, _ => []
    let outputsB : List Declared :=
      [.output "AuthenticationType" (authTypeString authenticationType),
       .output "SchemaBucketName" bucketName]
    match processTargets env gw bucketName props (props.integrationTargets.getD []) with
    | (tds, tr) =>
      (baseDecls ++ [.gatewayResource params] ++ outputsA ++ discOut ++ outputsB ++ tds, tr)

/-- Resources actually created at deploy time: deployment only happens
when synthesis succeeds, so a thrown synthesis error creates nothing. -/
def createdResources {α : Type} (run : List Declared × Except JsError α) : List Declared :=
  match run.2 with
  | .ok _ => run.1
  | .error _ => []

/-- Whether an elaboration result is a success. -/
def exceptOk {α : Type} : Except JsError α → Bool
  | .ok _ => true
  | .error _ => false

/-! ## Trace extraction helpers -/

/-- Whether a trace entry is the Cognito user pool construct. -/
def isCognitoDecl : Declared → Bool
  | .cognitoUserPool _ _ => true
  | _ => false

/-- Whether a trace entry is an output with the given key. -/
def isOutputKey (k : String) : Declared → Bool
  | .output k2 _ => k2 = k
  | _ => false

/-- Whether a trace entry is the gateway create resource. -/
def isGatewayResource : Declared → Bool
  | .gatewayResource _ => true
  | _ => false

/-- Names of the declared secrets, in order. -/
def secretNamesOf (ds : List Declared) : List String :=
  ds.filterMap (fun d => match d with | .secret n _ => some n | _ => none)

/-- Values of the declared secrets, in order. -/
def secretValuesOf (ds : List Declared) : List String :=
  ds.filterMap (fun d => match d with | .secret _ v => some v | _ => none)

/-- Names of the declared credential providers, in order. -/
def providerNamesOf (ds : List Declared) : List String :=
  ds.filterMap (fun d => match d with | .credentialProvider n _ => some n | _ => none)

/-- The `apiKey` parameters of the declared credential providers. -/
def providerApiKeysOf (ds : List Declared) : List String :=
  ds.filterMap (fun d => match d with | .credentialProvider _ k => some k | _ => none)

/-- Names of the declared gateway-target registrations. -/
def targetRegNamesOf (ds : List Declared) : List String :=
  ds.filterMap (fun d => match d with | .gatewayTargetResource reg => some reg.name | _ => none)

/-- Physical ids of the declared schema-upload custom resources. -/
def schemaProcessorIdsOf (ds : List Declared) : List String :=
  ds.filterMap (fun d => match d with | .schemaProcessor pid _ _ _ => some pid | _ => none)

/-- Object keys of the declared schema uploads. -/
def schemaKeysOf (ds : List Declared) : List String :=
  ds.filterMap (fun d => match d with | .schemaProcessor _ _ k _ => some k | _ => none)

/-- Credential parameter name and value prefix of each declared
gateway-target registration. -/
def credParamNamesOf (ds : List Declared) : List (String × Option String) :=
  ds.filterMap (fun d => match d with
    | .gatewayTargetResource reg =>
      match reg.credentialProviderConfigurations with
      | [cfg] =>
        match cfg.credentialProvider with
        | some cp =>
          match cp.apiKeyCredentialProvider with
          | some ak => some (ak.credentialParameterName, ak.credentialPfx)
          | none => none
        | none => none
      | _ => none
    | _ => none)

/-- Dependency edges of a successful target elaboration. -/
def depsOf (x : List Declared × Except JsError ITResult) : List (NodeId × NodeId) :=
  match x.2 with
  | .ok r => r.deps
  | .error _ => []

/-- Credential provider configurations of a successful target
elaboration. -/
def credConfigsOf (x : List Declared × Except JsError ITResult) :
    List CredentialProviderConfiguration :=
  match x.2 with
  | .ok r => r.registration.credentialProviderConfigurations
  | .error _ => []

/-! ## Format lemmas for the identifier generator -/

/-- A hex digit is alphanumeric. -/
theorem hexDigit_isAlphanum (n : Nat) : (hexDigit n).isAlphanum = true := by
  have h : n % 16 < 16 := Nat.mod_lt _ (by norm_num)
  unfold hexDigit
  generalize hm : n % 16 = m at h ⊢
  interval_cases m <;> decide

/-- The uppercase image of a hex digit is alphanumeric. -/
theorem hexDigit_toUpper_isAlphanum (n : Nat) : ((hexDigit n).toUpper).isAlphanum = true := by
  have h : n % 16 < 16 := Nat.mod_lt _ (by norm_num)
  unfold hexDigit
  generalize hm : n % 16 = m at h ⊢
  interval_cases m <;> decide

/-- The lowercase image of a hex digit is alphanumeric. -/
theorem hexDigit_toLower_isAlphanum (n : Nat) : ((hexDigit n).toLower).isAlphanum = true := by
  have h : n % 16 < 16 := Nat.mod_lt _ (by norm_num)
  unfold hexDigit
  generalize hm : n % 16 = m at h ⊢
  interval_cases m <;> decide

/-- A hex word rendering has eight characters. -/
theorem toHex8_length (w : Nat) : (toHex8 w).length = 8 := by
  simp [toHex8]

/-- Every character of a hex word rendering is a hex digit. -/
theorem mem_toHex8 (w : Nat) (c : Char) (hc : c ∈ toHex8 w) : ∃ n, c = hexDigit n := by
  simp only [toHex8, List.mem_map] at hc
  obtain ⟨i, _, rfl⟩ := hc
  exact ⟨_, rfl⟩

/-- The digest rendering has 64 characters. -/
theorem sha256HexChars_length (s : String) : (sha256HexChars s).length = 64 := by
  simp [sha256HexChars, toHex8_length]

/-- Every character of the digest rendering is a hex digit. -/
theorem mem_sha256HexChars (s : String) (c : Char) (hc : c ∈ sha256HexChars s) :
    ∃ n, c = hexDigit n := by
  simp only [sha256HexChars, List.mem_append] at hc
  rcases hc with ((((((h | h) | h) | h) | h) | h) | h) | h <;> exact mem_toHex8 _ _ h

/-- C5 helper: the truncated id has ten characters. -/
theorem hashId10_length (key : String) : (hashId10 key).length = 10 := by
  simp [hashId10, List.length_take, sha256HexChars_length]

/-- C5 helper: every character of the truncated id is a hex digit. -/
theorem mem_hashId10 (key : String) (c : Char) (hc : c ∈ hashId10 key) :
    ∃ n, c = hexDigit n :=
  mem_sha256HexChars key c (List.take_subset _ _ hc)

/-- C5: for every semantic key K, the deterministic identifier generator
applied to K twice returns the same value; the result is a fixed-length
ten-character alphanumeric token obtained by truncating the SHA-256 hex
digest of K; and the two code sites (the execution-role id and the
per-target id, both uppercased truncations) share the same length and
alphanumeric format. -/
theorem deterministicId_stable_and_format (K : String) :
    deterministicId K = deterministicId K ∧
    (deterministicId K).length = 10 ∧
    (∀ c ∈ (deterministicId K).toList, c.isAlphanum = true) ∧
    deterministicId K = jsTake (sha256hex K) 10 ∧
    roleUniqueId K = jsToUpper (deterministicId (K ++ "-execution-role")) ∧
    integrationUniqueId K = jsToUpper (deterministicId (K ++ "-target-id")) ∧
    (roleUniqueId K).length = 10 ∧
    (∀ c ∈ (roleUniqueId K).toList, c.isAlphanum = true) ∧
    (integrationUniqueId K).length = 10 ∧
    (∀ c ∈ (integrationUniqueId K).toList, c.isAlphanum = true) := by
  refine ⟨rfl, ?_, ?_, rfl, rfl, rfl, ?_, ?_, ?_, ?_⟩
  · exact hashId10_length K
  · intro c hc
    obtain ⟨n, rfl⟩ := mem_hashId10 K c hc
    exact hexDigit_isAlphanum n
  · show ((hashId10 (K ++ "-execution-role")).map Char.toUpper).length = 10
    simp [List.length_map, hashId10_length]
  · intro c hc
    have hc2 : c ∈ (hashId10 (K ++ "-execution-role")).map Char.toUpper := hc
    simp only [List.mem_map] at hc2
    obtain ⟨c2, hc2, rfl⟩ := hc2
    obtain ⟨n, rfl⟩ := mem_hashId10 _ c2 hc2
    exact hexDigit_toUpper_isAlphanum n
  · show ((hashId10 (K ++ "-target-id")).map Char.toUpper).length = 10
    simp [List.length_map, hashId10_length]
  · intro c hc
    have hc2 : c ∈ (hashId10 (K ++ "-target-id")).map Char.toUpper := hc
    simp only [List.mem_map] at hc2
    obtain ⟨c2, hc2, rfl⟩ := hc2
    obtain ⟨n, rfl⟩ := mem_hashId10 _ c2 hc2
    exact hexDigit_toUpper_isAlphanum n

/-- Witness for C5 at a concrete key: the first digest character of the
identifier for "WitnessKey" is alphanumeric by the theorem. -/
theorem deterministicId_stable_and_format_witness :
    (Char.ofNat 51) ∈ (deterministicId "WitnessKey").toList ∧
    Char.isAlphanum (Char.ofNat 51) = true :=
  ⟨by decide,
   (deterministicId_stable_and_format "WitnessKey").2.2.1 (Char.ofNat 51) (by decide)⟩

/-- C2: the Cognito binder is declared in the synthesis trace exactly
when the effective authentication mode is JWT; in IAM mode the trace
contains no Cognito construct and no discovery-URL output. -/
theorem cognito_iff_jwt (env : StackEnv) (props : McpGatewayStackProps) :
    ((elabStack env props).1.any isCognitoDecl = true ↔
      props.authenticationType.getD .JWT = .JWT) ∧
    (props.authenticationType.getD .JWT = .IAM →
      (elabStack env props).1.all (fun d => !isOutputKey "CognitoDiscoveryUrl" d) = true) := by
  cases hA : props.authenticationType with
  | none =>
    simp [elabStack, hA, agentCoreGatewayCreateParams, isCognitoDecl]
  | some a =>
    cases a with
    | JWT =>
      simp [elabStack, hA, agentCoreGatewayCreateParams, isCognitoDecl]
    | IAM =>
      simp [elabStack, hA, agentCoreGatewayCreateParams, isCognitoDecl, isOutputKey]

/-- Concrete IAM-mode environment for the C2 witness. -/
def c2Env : StackEnv :=
  { stackName := "WitnessStack", account := "123456789012", region := "us-east-1",
    nodeAddr := "abcdef12", templates := fun _ => none }

/-- Concrete IAM-mode props for the C2 witness. -/
def c2Props : McpGatewayStackProps :=
  { gatewayName := some "McpGateway", gatewayDescription := some "MCP Gateway",
    enableSemanticSearch := some false, exceptionLevel := none,
    authenticationType := some .IAM, integrationTargets := some [],
    agentCoreSchemasBucket := none }

/-- Witness for C2 at a concrete IAM deployment. -/
theorem cognito_iff_jwt_witness :
    (c2Props.authenticationType.getD .JWT = .IAM) ∧
    (elabStack c2Env c2Props).1.all (fun d => !isOutputKey "CognitoDiscoveryUrl" d) = true :=
  ⟨by decide, (cognito_iff_jwt c2Env c2Props).2 (by decide)⟩

/-- Concrete IAM-mode environment exhibiting the C1 divergence. -/
def c1Env : StackEnv :=
  { stackName := "McpGatewayStackV4", account := "123456789012", region := "us-east-1",
    nodeAddr := "abcdef12", templates := fun _ => none }

/-- Concrete IAM-mode props exhibiting the C1 divergence. -/
def c1Props : McpGatewayStackProps :=
  { gatewayName := some "McpGateway", gatewayDescription := some "MCP Gateway",
    enableSemanticSearch := some false, exceptionLevel := none,
    authenticationType := some .IAM, integrationTargets := some [],
    agentCoreSchemasBucket := none }

/-- C1 (code bug, evaluated at the failing input): with
authentication-mode IAM the gateway construct does not omit the
authorizer block; it dereferences the undefined `jwtAuthorizer` and
synthesis aborts with a TypeError, so no gateway create call (with or
without an authorizer) is ever declared. -/
theorem iam_mode_gateway_create_throws :
    (elabStack c1Env c1Props).2 = .error .typeErrorUndefined ∧
    (elabStack c1Env c1Props).1.all (fun d => !isGatewayResource d) = true := by
  exact ⟨rfl, rfl⟩

/-- Helper: a failing target in the configured list makes the whole
target-processing loop fail. -/
theorem processTargets_error_of_mem (env : StackEnv) (gw : GatewayInfo) (bucketName : String)
    (props : McpGatewayStackProps) (ts : List IntegrationTargetConfig)
    (t : IntegrationTargetConfig) (hmem : t ∈ ts)
    (he : exceptOk (processTarget env gw bucketName props t).2 = false) :
    exceptOk (processTargets env gw bucketName props ts).2 = false := by
  induction ts with
  | nil => exact absurd hmem (List.not_mem_nil t)
  | cons t2 ts2 ih =>
    simp only [processTargets]
    cases hpt : processTarget env gw bucketName props t2 with
    | mk ds r =>
      cases r with
      | error e => simp [exceptOk]
      | ok u =>
        rcases List.mem_cons.mp hmem with h | h
        · subst h
          rw [hpt] at he
          simp [exceptOk] at he
        · cases hr : processTargets env gw bucketName props ts2 with
          | mk ds2 r2 =>
            have hih := ih h
            rw [hr] at hih
            simpa using hih

/-- Helper: a synthesis run either aborts in the gateway construct with
the TypeError or ends with the result of the target-processing loop. -/
theorem elabStack_result (env : StackEnv) (props : McpGatewayStackProps) :
    (elabStack env props).2 = .error .typeErrorUndefined ∨
    (elabStack env props).2 =
      (processTargets env gatewayResponseTokens (schemaBucketNameOf env) props
        (props.integrationTargets.getD [])).2 := by
  cases hA : props.authenticationType with
  | none => right; simp [elabStack, hA, agentCoreGatewayCreateParams]
  | some a =>
    cases a with
    | JWT => right; simp [elabStack, hA, agentCoreGatewayCreateParams]
    | IAM => left; simp [elabStack, hA, agentCoreGatewayCreateParams]

/-- C3: an enabled custom-schema target whose configuration lacks a base
URL (absent or empty) makes its processing fail with the validation
error while declaring nothing at all — no schema upload, no secret, no
control-plane resource — and any deployment configured with such a
target fails synthesis. -/
theorem custom_target_missing_baseurl_fails (env : StackEnv) (gw : GatewayInfo)
    (bucketName : String) (props : McpGatewayStackProps) (t : IntegrationTargetConfig)
    (hen : t.enabled = true)
    (hcustom : jsStartsWith t.type "agentcore-" = false)
    (hbase : t.config.baseUrl = none ∨ t.config.baseUrl = some "") :
    processTarget env gw bucketName props t = ([], .error (.baseUrlRequired t.type)) ∧
    (∀ (env2 : StackEnv) (props2 : McpGatewayStackProps)
       (ts : List IntegrationTargetConfig),
      props2.integrationTargets = some ts → t ∈ ts →
      exceptOk (elabStack env2 props2).2 = false) := by
  have hpt : ∀ (env2 : StackEnv) (gw2 : GatewayInfo) (b2 : String)
      (props2 : McpGatewayStackProps),
      processTarget env2 gw2 b2 props2 t = ([], .error (.baseUrlRequired t.type)) := by
    intro env2 gw2 b2 props2
    rcases hbase with hb | hb <;>
      simp [processTarget, generateProcessedSchema, hen, hcustom, hb]
  refine ⟨hpt env gw bucketName props, ?_⟩
  intro env2 props2 ts hts hmem
  rcases elabStack_result env2 props2 with h | h
  · rw [h]; rfl
  · rw [h, hts]
    apply processTargets_error_of_mem _ _ _ _ _ _ hmem
    rw [hpt]
    rfl

/-- Concrete deployment for the C3 witness. -/
def c3Env : StackEnv :=
  { stackName := "WitnessStack3", account := "123456789012", region := "us-east-1",
    nodeAddr := "abcdef12", templates := fun _ => none }

/-- Concrete misconfigured custom target (no base URL) for C3. -/
def c3Target : IntegrationTargetConfig :=
  { type := "jira", enabled := true,
    config := { apiKey := some "k", baseUrl := none, auth := none } }

/-- Concrete props carrying the misconfigured target for C3. -/
def c3Props : McpGatewayStackProps :=
  { gatewayName := some "G", gatewayDescription := some "D",
    enableSemanticSearch := some false, exceptionLevel := none,
    authenticationType := some .JWT, integrationTargets := some [c3Target],
    agentCoreSchemasBucket := none }

/-- Witness for C3 at a concrete deployment. -/
theorem custom_target_missing_baseurl_fails_witness :
    (c3Target.enabled = true ∧ jsStartsWith c3Target.type "agentcore-" = false ∧
      c3Target.config.baseUrl = none) ∧
    processTarget c3Env gatewayResponseTokens "bkt" c3Props c3Target =
      ([], .error (.baseUrlRequired c3Target.type)) ∧
    exceptOk (elabStack c3Env c3Props).2 = false :=
  ⟨⟨by decide, by decide, rfl⟩,
   (custom_target_missing_baseurl_fails c3Env gatewayResponseTokens "bkt" c3Props c3Target
      (by decide) (by decide) (Or.inl rfl)).1,
   (custom_target_missing_baseurl_fails c3Env gatewayResponseTokens "bkt" c3Props c3Target
      (by decide) (by decide) (Or.inl rfl)).2 c3Env c3Props [c3Target] rfl
      (List.mem_singleton.mpr rfl)⟩

/-- C7: the storage-location example parses to its bucket and key; any
URI the pattern rejects (in particular one lacking the scheme prefix)
makes the target construct throw the malformed-location error during
synthesis, so nothing of that target is ever created. -/
theorem invalid_s3_uri_fails (env : StackEnv) (gw : GatewayInfo) (p : IntegrationTargetProps)
    (hp : parseS3Uri p.openApiSchemaS3Uri = none) :
    parseS3Uri "s3://bucket-name/key/path.json" = some ("bucket-name", "key/path.json") ∧
    (elabIntegrationTarget env gw p).2 = .error (.invalidS3Uri p.openApiSchemaS3Uri) ∧
    createdResources (elabIntegrationTarget env gw p) = [] ∧
    (∀ u : String, jsStartsWith u "s3://" = false → parseS3Uri u = none) := by
  refine ⟨by decide, ?_, ?_, ?_⟩
  · simp [elabIntegrationTarget, hp]
  · simp [createdResources, elabIntegrationTarget, hp]
  · intro u hu
    unfold jsStartsWith at hu
    simp only [parseS3Uri, hu]
    simp

/-- Concrete environment for the C7 witness. -/
def c7Env : StackEnv :=
  { stackName := "WitnessStack7", account := "123456789012", region := "us-east-1",
    nodeAddr := "abcdef12", templates := fun _ => none }

/-- Concrete target props whose storage location lacks the scheme
prefix, for C7. -/
def c7Props : IntegrationTargetProps :=
  { targetName := some "jira", description := none,
    openApiSchemaS3Uri := "http://bucket/key.json", apiKey := some "k", auth := none }

/-- Witness for C7 at a concrete malformed location. -/
theorem invalid_s3_uri_fails_witness :
    parseS3Uri c7Props.openApiSchemaS3Uri = none ∧
    (elabIntegrationTarget c7Env gatewayResponseTokens c7Props).2 =
      .error (.invalidS3Uri c7Props.openApiSchemaS3Uri) ∧
    createdResources (elabIntegrationTarget c7Env gatewayResponseTokens c7Props) = [] ∧
    (jsStartsWith "bucket/key.json" "s3://" = false ∧
      parseS3Uri "bucket/key.json" = none) :=
  ⟨by decide,
   (invalid_s3_uri_fails c7Env gatewayResponseTokens c7Props (by decide)).2.1,
   (invalid_s3_uri_fails c7Env gatewayResponseTokens c7Props (by decide)).2.2.1,
   by decide,
   (invalid_s3_uri_fails c7Env gatewayResponseTokens c7Props (by decide)).2.2.2
     "bucket/key.json" (by decide)⟩

/-- An execution order respects the declared dependency edges when every
dependency is placed before its dependent. -/
def respectsDeps (deps : List (NodeId × NodeId)) (order : List NodeId) : Prop :=
  ∀ e ∈ deps, order.indexOf e.2 < order.indexOf e.1

/-- C8: a successfully elaborated integration target declares dependency
edges from its gateway-target registration to the secret, the credential
provider and the gateway, so every execution order respecting the edges
registers the target only after all three exist. -/
theorem target_registration_dependencies (env : StackEnv) (gw : GatewayInfo)
    (p : IntegrationTargetProps)
    (hu : (parseS3Uri p.openApiSchemaS3Uri).isSome = true) :
    ((NodeId.targetNode, NodeId.gatewayNode) ∈ depsOf (elabIntegrationTarget env gw p) ∧
     (NodeId.targetNode, NodeId.secretNode) ∈ depsOf (elabIntegrationTarget env gw p) ∧
     (NodeId.targetNode, NodeId.providerNode) ∈ depsOf (elabIntegrationTarget env gw p)) ∧
    (∀ order : List NodeId,
      respectsDeps (depsOf (elabIntegrationTarget env gw p)) order →
      order.indexOf NodeId.secretNode < order.indexOf NodeId.targetNode ∧
      order.indexOf NodeId.providerNode < order.indexOf NodeId.targetNode ∧
      order.indexOf NodeId.gatewayNode < order.indexOf NodeId.targetNode) := by
  cases hp : parseS3Uri p.openApiSchemaS3Uri with
  | none => rw [hp] at hu; simp at hu
  | some v =>
    have hdeps : depsOf (elabIntegrationTarget env gw p) =
        [(.targetNode, .gatewayNode), (.targetNode, .secretNode),
         (.targetNode, .providerNode)] := by
      simp [depsOf, elabIntegrationTarget, hp]
    rw [hdeps]
    refine ⟨⟨by simp, by simp, by simp⟩, ?_⟩
    intro order hresp
    exact ⟨hresp (NodeId.targetNode, NodeId.secretNode) (by simp),
           hresp (NodeId.targetNode, NodeId.providerNode) (by simp),
           hresp (NodeId.targetNode, NodeId.gatewayNode) (by simp)⟩

/-- Concrete environment for the C8 witness. -/
def c8Env : StackEnv :=
  { stackName := "WitnessStack8", account := "123456789012", region := "us-east-1",
    nodeAddr := "abcdef12", templates := fun _ => none }

/-- Concrete valid target props for C8. -/
def c8Props : IntegrationTargetProps :=
  { targetName := some "jira", description := none,
    openApiSchemaS3Uri := "s3://bkt/jira-open-api.json", apiKey := some "k", auth := none }

/-- Witness for C8 at a concrete valid target. -/
theorem target_registration_dependencies_witness :
    (parseS3Uri c8Props.openApiSchemaS3Uri).isSome = true ∧
    (NodeId.targetNode, NodeId.gatewayNode) ∈
      depsOf (elabIntegrationTarget c8Env gatewayResponseTokens c8Props) ∧
    (NodeId.targetNode, NodeId.secretNode) ∈
      depsOf (elabIntegrationTarget c8Env gatewayResponseTokens c8Props) ∧
    (NodeId.targetNode, NodeId.providerNode) ∈
      depsOf (elabIntegrationTarget c8Env gatewayResponseTokens c8Props) ∧
    ([NodeId.gatewayNode, NodeId.secretNode, NodeId.providerNode,
        NodeId.targetNode].indexOf NodeId.secretNode <
      [NodeId.gatewayNode, NodeId.secretNode, NodeId.providerNode,
        NodeId.targetNode].indexOf NodeId.targetNode) :=
  ⟨by decide,
   (target_registration_dependencies c8Env gatewayResponseTokens c8Props (by decide)).1.1,
   (target_registration_dependencies c8Env gatewayResponseTokens c8Props (by decide)).1.2.1,
   (target_registration_dependencies c8Env gatewayResponseTokens c8Props (by decide)).1.2.2,
   ((target_registration_dependencies c8Env gatewayResponseTokens c8Props (by decide)).2
      [NodeId.gatewayNode, NodeId.secretNode, NodeId.providerNode, NodeId.targetNode]
      (by intro e he; fin_cases he <;> decide)).1⟩

/-- C10: a target whose configuration omits the API key still
elaborates; the secret value and the credential provider parameter both
fall back to the literal "dummy-api-key". -/
theorem omitted_apikey_uses_dummy (env : StackEnv) (gw : GatewayInfo)
    (p : IntegrationTargetProps) (hk : p.apiKey = none) :
    secretValuesOf (elabIntegrationTarget env gw p).1 = ["dummy-api-key"] ∧
    providerApiKeysOf (elabIntegrationTarget env gw p).1 = ["dummy-api-key"] ∧
    ((parseS3Uri p.openApiSchemaS3Uri).isSome = true →
      exceptOk (elabIntegrationTarget env gw p).2 = true) := by
  cases hp : parseS3Uri p.openApiSchemaS3Uri <;>
    simp [secretValuesOf, providerApiKeysOf, elabIntegrationTarget, hp, hk, jsOr, exceptOk]

/-- Concrete environment for the C10 witness. -/
def c10Env : StackEnv :=
  { stackName := "WitnessStack10", account := "123456789012", region := "us-east-1",
    nodeAddr := "abcdef12", templates := fun _ => none }

/-- Concrete target props without an API key for C10. -/
def c10Props : IntegrationTargetProps :=
  { targetName := some "jira", description := none,
    openApiSchemaS3Uri := "s3://bkt/jira-open-api.json", apiKey := none, auth := none }

/-- Witness for C10 at a concrete key-less target. -/
theorem omitted_apikey_uses_dummy_witness :
    c10Props.apiKey = none ∧
    secretValuesOf (elabIntegrationTarget c10Env gatewayResponseTokens c10Props).1 =
      ["dummy-api-key"] ∧
    providerApiKeysOf (elabIntegrationTarget c10Env gatewayResponseTokens c10Props).1 =
      ["dummy-api-key"] ∧
    exceptOk (elabIntegrationTarget c10Env gatewayResponseTokens c10Props).2 = true :=
  ⟨rfl,
   (omitted_apikey_uses_dummy c10Env gatewayResponseTokens c10Props rfl).1,
   (omitted_apikey_uses_dummy c10Env gatewayResponseTokens c10Props rfl).2.1,
   (omitted_apikey_uses_dummy c10Env gatewayResponseTokens c10Props rfl).2.2 (by decide)⟩

/-- Helper: the falsy-default idiom agrees with the plain option default
when any present value is nonempty. -/
theorem jsOr_eq_getD (o : Option String) (d : String)
    (h : ∀ s, o = some s → s ≠ "") : jsOr o d = o.getD d := by
  cases o with
  | none => rfl
  | some s => simp [jsOr, h s rfl]


/-- Helper: every gateway-target registration declared by an
`IntegrationTarget` elaboration carries the credential parameter name
and value prefix computed by the falsy-default idiom from its auth
props. -/
theorem credParamNamesOf_elabIT (env : StackEnv) (gw : GatewayInfo)
    (p : IntegrationTargetProps) :
    ∀ x ∈ credParamNamesOf (elabIntegrationTarget env gw p).1,
      x = (jsOr (p.auth.bind (fun a => a.parameterName)) "Authorization",
           some (jsOr (p.auth.bind (fun a => a.pfx)) "Basic")) := by
  intro x hx
  cases hp : parseS3Uri p.openApiSchemaS3Uri with
  | none => simp [elabIntegrationTarget, hp, credParamNamesOf] at hx
  | some v =>
    simp [elabIntegrationTarget, hp, credParamNamesOf] at hx
    exact hx

/-- C9: a successfully elaborated target carries exactly one credential
provider configuration: type API_KEY, header location, the
convention-built provider ARN, and parameter name and value prefix taken
from the auth configuration with defaults "Authorization" and "Basic";
and every gateway-target registration declared for a marker-prefixed
(pre-built) target type carries the fixed pair ("Authorization",
"Basic"). -/
theorem target_credential_config (env : StackEnv) (gw : GatewayInfo)
    (bucketName : String) (props : McpGatewayStackProps) (p : IntegrationTargetProps)
    (hu : (parseS3Uri p.openApiSchemaS3Uri).isSome = true)
    (hpn : ∀ s, p.auth.bind (fun a => a.parameterName) = some s → s ≠ "")
    (hpx : ∀ s, p.auth.bind (fun a => a.pfx) = some s → s ≠ "") :
    credConfigsOf (elabIntegrationTarget env gw p) =
      [{ credentialProviderType := "API_KEY"
         credentialProvider := some
           { apiKeyCredentialProvider := some
               { providerArn := "arn:aws:bedrock-agentcore:" ++ env.region ++ ":" ++
                   env.account ++ ":token-vault/default/apikeycredentialprovider/" ++
                   (jsToLower (jsOr p.targetName "integration") ++ "_api_key_" ++
                     integrationUniqueId (jsOr p.targetName "integration"))
                 credentialLocation := "HEADER"
                 credentialParameterName :=
                   (p.auth.bind (fun a => a.parameterName)).getD "Authorization"
                 credentialPfx :=
                   some ((p.auth.bind (fun a => a.pfx)).getD "Basic") }
             oauth2CredentialProviderArn := none } }] ∧
    (∀ t : IntegrationTargetConfig, jsStartsWith t.type "agentcore-" = true →
      ∀ x ∈ credParamNamesOf (processTarget env gw bucketName props t).1,
        x = ("Authorization", some "Basic")) := by
  constructor
  · cases hp : parseS3Uri p.openApiSchemaS3Uri with
    | none => rw [hp] at hu; simp at hu
    | some v =>
      have h1 : jsOr (p.auth.bind (fun a => a.parameterName)) "Authorization" =
          (p.auth.bind (fun a => a.parameterName)).getD "Authorization" :=
        jsOr_eq_getD _ _ hpn
      have h2 : jsOr (p.auth.bind (fun a => a.pfx)) "Basic" =
          (p.auth.bind (fun a => a.pfx)).getD "Basic" :=
        jsOr_eq_getD _ _ hpx
      simp [credConfigsOf, elabIntegrationTarget, hp, h1, h2]
  · intro t ht x hx
    by_cases he : t.enabled = true
    · simp only [processTarget, he, ht, if_true] at hx
      split at hx
      next ds e heq =>
        have hfst := congrArg Prod.fst heq
        simp only at hfst
        rw [← hfst] at hx
        have h2 := credParamNamesOf_elabIT env gw _ x hx
        simpa [jsOr] using h2
      next ds u heq =>
        simp only [credParamNamesOf, List.filterMap_append] at hx
        rcases List.mem_append.mp hx with hx2 | hx2
        · have hfst := congrArg Prod.fst heq
          simp only at hfst
          rw [← hfst] at hx2
          have h2 := credParamNamesOf_elabIT env gw _ x hx2
          simpa [jsOr] using h2
        · simp [credParamNamesOf] at hx2
    · simp only [Bool.not_eq_true] at he
      simp only [processTarget, he, Bool.false_eq_true, if_false] at hx
      simp [credParamNamesOf] at hx

/-- Concrete environment for the C9 witness. -/
def c9Env : StackEnv :=
  { stackName := "WitnessStack9", account := "123456789012", region := "us-east-1",
    nodeAddr := "abcdef12", templates := fun _ => none }

/-- Concrete target props with explicit auth configuration for C9. -/
def c9Props : IntegrationTargetProps :=
  { targetName := some "jira", description := none,
    openApiSchemaS3Uri := "s3://bkt/jira-open-api.json", apiKey := some "k",
    auth := some { parameterName := some "X-Api-Key", pfx := some "Bearer" } }

/-- Concrete stack props for the C9 witness. -/
def c9StackProps : McpGatewayStackProps :=
  { gatewayName := some "G", gatewayDescription := some "D",
    enableSemanticSearch := some false, exceptionLevel := none,
    authenticationType := some .JWT, integrationTargets := none,
    agentCoreSchemasBucket := none }

/-- Concrete marker-prefixed target for the pre-built half of the C9
witness. -/
def c9PrebuiltTarget : IntegrationTargetConfig :=
  { type := "agentcore-pagerduty", enabled := true,
    config := { apiKey := some "k", baseUrl := none, auth := none } }

/-- Witness for C9 at a concrete configured target. -/
theorem target_credential_config_witness :
    (parseS3Uri c9Props.openApiSchemaS3Uri).isSome = true ∧
    credConfigsOf (elabIntegrationTarget c9Env gatewayResponseTokens c9Props) =
      [{ credentialProviderType := "API_KEY"
         credentialProvider := some
           { apiKeyCredentialProvider := some
               { providerArn := "arn:aws:bedrock-agentcore:" ++ c9Env.region ++ ":" ++
                   c9Env.account ++ ":token-vault/default/apikeycredentialprovider/" ++
                   (jsToLower (jsOr c9Props.targetName "integration") ++ "_api_key_" ++
                     integrationUniqueId (jsOr c9Props.targetName "integration"))
                 credentialLocation := "HEADER"
                 credentialParameterName :=
                   (c9Props.auth.bind (fun a => a.parameterName)).getD "Authorization"
                 credentialPfx :=
                   some ((c9Props.auth.bind (fun a => a.pfx)).getD "Basic") }
             oauth2CredentialProviderArn := none } }] ∧
    ("Authorization", some "Basic") = ("Authorization", (some "Basic" : Option String)) :=
  ⟨by decide,
   (target_credential_config c9Env gatewayResponseTokens "bkt" c9StackProps c9Props
      (by decide) (by simp [c9Props]) (by simp [c9Props])).1,
   (target_credential_config c9Env gatewayResponseTokens "bkt" c9StackProps c9Props
      (by decide) (by simp [c9Props]) (by simp [c9Props])).2 c9PrebuiltTarget (by decide)
      ("Authorization", some "Basic") (by decide)⟩

/-- Helper: when the pattern does not occur in the input the replacement
scan returns the input unchanged. -/
theorem replaceAuxF_no_occ (pat : List Char) (f : List Char → List Char → List Char)
    (fuel : Nat) : ∀ (pre rest : List Char), containsPat pat rest = false →
    replaceAuxF pat f fuel pre rest = rest := by
  induction fuel with
  | zero => intro pre rest _; rfl
  | succ n ih =>
    intro pre rest h
    cases rest with
    | nil => rfl
    | cons c cs =>
      rw [containsPat] at h
      simp only [Bool.or_eq_false_iff] at h
      simp only [replaceAuxF, h.1, Bool.false_eq_true, if_false]
      rw [ih (pre ++ [c]) cs h.2]

/-- Helper: the replacement scan only depends on the replacement-builder
function extensionally. -/
theorem replaceAuxF_congr (pat : List Char) (f g : List Char → List Char → List Char)
    (hfg : ∀ x y, f x y = g x y) (fuel : Nat) :
    ∀ pre rest, replaceAuxF pat f fuel pre rest = replaceAuxF pat g fuel pre rest := by
  induction fuel with
  | zero => intro pre rest; rfl
  | succ n ih =>
    intro pre rest
    cases rest with
    | nil => rfl
    | cons c cs =>
      simp only [replaceAuxF]
      cases hb : pat.isPrefixOf (c :: cs) with
      | false => simp only [Bool.false_eq_true, if_false]; rw [ih]
      | true => simp only [if_true]; rw [hfg, ih]

/-- Helper: the ECMAScript substitution expansion is the identity on
replacement strings containing no dollar sign. -/
theorem expandSub_no_dollar (m b a : List Char) :
    ∀ rep : List Char, '$' ∉ rep → expandSub m b a rep = rep := by
  intro rep
  induction rep with
  | nil => intro _; rfl
  | cons c rest ih =>
    intro h
    have hc : ¬ (c = '$') := by
      intro hh
      subst hh
      exact h (List.mem_cons_self _ _)
    have hrest : '$' ∉ rest := fun hm => h (List.mem_cons_of_mem c hm)
    cases rest with
    | nil => rfl
    | cons d r =>
      rw [expandSub, if_neg hc, ih hrest]

/-- C4 counterexample: with the supplied value "$$" the code produces
"$" (the ECMAScript dollar-escape expansion), not the supplied value,
so substitution does not replace the placeholder with the supplied value
on every input. -/
theorem template_substitution_counterexample :
    substituteBaseUrl "\x7b\x7bBASE_URL\x7d\x7d" "$$" = "$" ∧
    naiveReplaceAll "\x7b\x7bBASE_URL\x7d\x7d" "$$" = "$$" ∧
    substituteBaseUrl "\x7b\x7bBASE_URL\x7d\x7d" "$$" ≠
      naiveReplaceAll "\x7b\x7bBASE_URL\x7d\x7d" "$$" :=
  ⟨by decide, by decide, by decide⟩

/-- C4 amended: on inputs without the placeholder the output equals the
input (for every value); and for every value containing no dollar sign
the substitution replaces every occurrence of the placeholder with the
supplied value itself (it agrees with the spec-level replacement). -/
theorem template_substitution_amended (t v : String) :
    (containsPat basePat t.toList = false → substituteBaseUrl t v = t) ∧
    ('$' ∉ v.toList → substituteBaseUrl t v = naiveReplaceAll t v) := by
  constructor
  · intro h
    unfold substituteBaseUrl substituteBaseUrlList
    rw [replaceAuxF_no_occ _ _ _ _ _ h]
    cases t
    rfl
  · intro h
    unfold substituteBaseUrl naiveReplaceAll substituteBaseUrlList naiveReplaceAllList
    congr 1
    apply replaceAuxF_congr
    intro x y
    exact expandSub_no_dollar basePat x y v.toList h

/-- Witness for the amended C4 at the spec's example. -/
theorem template_substitution_amended_witness :
    ('$' ∉ "https://x".toList) ∧
    substituteBaseUrl "\x7b\x7bBASE_URL\x7d\x7d/a \x7b\x7bBASE_URL\x7d\x7d/b" "https://x" =
      naiveReplaceAll "\x7b\x7bBASE_URL\x7d\x7d/a \x7b\x7bBASE_URL\x7d\x7d/b" "https://x" ∧
    naiveReplaceAll "\x7b\x7bBASE_URL\x7d\x7d/a \x7b\x7bBASE_URL\x7d\x7d/b" "https://x" =
      "https://x/a https://x/b" ∧
    (containsPat basePat "no placeholder here".toList = false ∧
      substituteBaseUrl "no placeholder here" "$x" = "no placeholder here") :=
  ⟨by decide, (template_substitution_amended _ _).2 (by decide), by decide,
   by decide, (template_substitution_amended "no placeholder here" "$x").1 (by decide)⟩

/-- Helper: the declared secret name of a target elaboration depends
only on the target name. -/
theorem secretNamesOf_elabIT (env : StackEnv) (gw : GatewayInfo)
    (p : IntegrationTargetProps) :
    secretNamesOf (elabIntegrationTarget env gw p).1 =
      [jsToLower (jsOr p.targetName "integration") ++ "-api-key-" ++
        integrationUniqueId (jsOr p.targetName "integration") ++ "1"] := by
  cases hp : parseS3Uri p.openApiSchemaS3Uri <;>
    simp [elabIntegrationTarget, hp, secretNamesOf]

/-- Helper: the declared credential provider name of a target
elaboration depends only on the target name. -/
theorem providerNamesOf_elabIT (env : StackEnv) (gw : GatewayInfo)
    (p : IntegrationTargetProps) :
    providerNamesOf (elabIntegrationTarget env gw p).1 =
      [jsToLower (jsOr p.targetName "integration") ++ "_api_key_" ++
        integrationUniqueId (jsOr p.targetName "integration")] := by
  cases hp : parseS3Uri p.openApiSchemaS3Uri <;>
    simp [elabIntegrationTarget, hp, providerNamesOf]

/-- Helper: the declared registration name of a successful target
elaboration depends only on the target name. -/
theorem targetRegNamesOf_elabIT_ok (env : StackEnv) (gw : GatewayInfo)
    (p : IntegrationTargetProps)
    (hok : exceptOk (elabIntegrationTarget env gw p).2 = true) :
    targetRegNamesOf (elabIntegrationTarget env gw p).1 =
      [jsOr p.targetName "integration" ++ "-" ++
        integrationUniqueId (jsOr p.targetName "integration")] := by
  cases hp : parseS3Uri p.openApiSchemaS3Uri with
  | none => simp [elabIntegrationTarget, hp, exceptOk] at hok
  | some v => simp [elabIntegrationTarget, hp, targetRegNamesOf]

/-- Helper: a target elaboration declares no schema-processor entries. -/
theorem schemaProcessorIdsOf_elabIT (env : StackEnv) (gw : GatewayInfo)
    (p : IntegrationTargetProps) :
    schemaProcessorIdsOf (elabIntegrationTarget env gw p).1 = [] := by
  cases hp : parseS3Uri p.openApiSchemaS3Uri <;>
    simp [elabIntegrationTarget, hp, schemaProcessorIdsOf]

/-- Helper: a target elaboration declares no schema-object keys. -/
theorem schemaKeysOf_elabIT (env : StackEnv) (gw : GatewayInfo)
    (p : IntegrationTargetProps) :
    schemaKeysOf (elabIntegrationTarget env gw p).1 = [] := by
  cases hp : parseS3Uri p.openApiSchemaS3Uri <;>
    simp [elabIntegrationTarget, hp, schemaKeysOf]

/-- Helper: a successful schema materialisation declares exactly one
upload, keyed by the type and identified by the stack-and-type hash. -/
theorem generateProcessedSchema_ok (env : StackEnv) (b : String)
    (t : IntegrationTargetConfig) (gds : List Declared) (u : Unit)
    (h : generateProcessedSchema env b t = (gds, .ok u)) :
    ∃ content, gds = [.schemaProcessor (schemaProcessorId env.stackName t.type) b
      (t.type ++ "-open-api.json") content] := by
  unfold generateProcessedSchema at h
  split at h
  · simp at h
  · split at h
    · simp at h
    · split at h
      · simp at h
      · simp only [Prod.mk.injEq] at h
        exact ⟨_, h.1.symm⟩

/-- Helper: the trace of a successfully processed enabled target is the
inner construct trace plus the output, preceded in the custom branch by
the schema upload. -/
theorem processTarget_trace_ok (env : StackEnv) (gw : GatewayInfo) (b : String)
    (props : McpGatewayStackProps) (t : IntegrationTargetConfig)
    (he : t.enabled = true)
    (hok : exceptOk (processTarget env gw b props t).2 = true) :
    (jsStartsWith t.type "agentcore-" = true ∧
      exceptOk (elabIntegrationTarget env gw (agentcoreProps props t)).2 = true ∧
      (processTarget env gw b props t).1 =
        (elabIntegrationTarget env gw (agentcoreProps props t)).1 ++
          [.output (t.type ++ "TargetId") tokenTargetId]) ∨
    (jsStartsWith t.type "agentcore-" = false ∧
      exceptOk (elabIntegrationTarget env gw (customProps b t)).2 = true ∧
      ∃ content,
        (processTarget env gw b props t).1 =
          .schemaProcessor (schemaProcessorId env.stackName t.type) b
            (t.type ++ "-open-api.json") content ::
          ((elabIntegrationTarget env gw (customProps b t)).1 ++
            [.output (t.type ++ "TargetId") tokenTargetId])) := by
  by_cases hm : jsStartsWith t.type "agentcore-" = true
  · left
    refine ⟨hm, ?_⟩
    simp only [processTarget, he, hm, if_true] at hok ⊢
    cases hcon : elabIntegrationTarget env gw (agentcoreProps props t) with
    | mk ds r =>
      cases r with
      | error e => rw [hcon] at hok; simp [exceptOk] at hok
      | ok v => exact ⟨rfl, rfl⟩
  · right
    rw [Bool.not_eq_true] at hm
    refine ⟨hm, ?_⟩
    simp only [processTarget, he, hm, Bool.false_eq_true, if_false, if_true] at hok ⊢
    cases hgen : generateProcessedSchema env b t with
    | mk gds gr =>
      cases gr with
      | error e => rw [hgen] at hok; simp [exceptOk] at hok
      | ok u =>
        cases hcon : elabIntegrationTarget env gw (customProps b t) with
        | mk ds2 r2 =>
          cases r2 with
          | error e => rw [hgen, hcon] at hok; simp [exceptOk] at hok
          | ok v =>
            obtain ⟨content, hc⟩ := generateProcessedSchema_ok env b t gds u hgen
            subst hc
            exact ⟨rfl, content, by simp⟩

/-- Secret names distribute over trace concatenation. -/
theorem secretNamesOf_append (ds es : List Declared) :
    secretNamesOf (ds ++ es) = secretNamesOf ds ++ secretNamesOf es := by
  simp [secretNamesOf]

/-- Provider names distribute over trace concatenation. -/
theorem providerNamesOf_append (ds es : List Declared) :
    providerNamesOf (ds ++ es) = providerNamesOf ds ++ providerNamesOf es := by
  simp [providerNamesOf]

/-- Registration names distribute over trace concatenation. -/
theorem targetRegNamesOf_append (ds es : List Declared) :
    targetRegNamesOf (ds ++ es) = targetRegNamesOf ds ++ targetRegNamesOf es := by
  simp [targetRegNamesOf]

/-- Schema keys distribute over trace concatenation. -/
theorem schemaKeysOf_append (ds es : List Declared) :
    schemaKeysOf (ds ++ es) = schemaKeysOf ds ++ schemaKeysOf es := by
  simp [schemaKeysOf]

/-- Schema-processor ids distribute over trace concatenation. -/
theorem schemaProcessorIdsOf_append (ds es : List Declared) :
    schemaProcessorIdsOf (ds ++ es) = schemaProcessorIdsOf ds ++ schemaProcessorIdsOf es := by
  simp [schemaProcessorIdsOf]

/-- The target name the stack passes for a configured type: the type
with the marker stripped in the pre-built branch, the type itself in the
custom branch. -/
def stackTargetName (ty : String) : String :=
  if jsStartsWith ty "agentcore-" then jsReplaceFirst ty "agentcore-" "" else ty

/-- Helper: the secret name a successfully processed enabled target
declares is a function of its type alone. -/
theorem secretNamesOf_processTarget_ok (env : StackEnv) (gw : GatewayInfo) (b : String)
    (props : McpGatewayStackProps) (t : IntegrationTargetConfig)
    (he : t.enabled = true)
    (hok : exceptOk (processTarget env gw b props t).2 = true) :
    secretNamesOf (processTarget env gw b props t).1 =
      [jsToLower (jsOr (some (stackTargetName t.type)) "integration") ++ "-api-key-" ++
        integrationUniqueId (jsOr (some (stackTargetName t.type)) "integration") ++ "1"] := by
  rcases processTarget_trace_ok env gw b props t he hok with
    ⟨hm, _, htr⟩ | ⟨hm, _, content, htr⟩
  · rw [htr, secretNamesOf_append, secretNamesOf_elabIT]
    simp [secretNamesOf, agentcoreProps, stackTargetName, hm]
  · rw [htr, ← List.singleton_append, secretNamesOf_append, secretNamesOf_append,
        secretNamesOf_elabIT]
    simp [secretNamesOf, customProps, stackTargetName, hm]

/-- Helper: the credential provider name a successfully processed
enabled target declares is a function of its type alone. -/
theorem providerNamesOf_processTarget_ok (env : StackEnv) (gw : GatewayInfo) (b : String)
    (props : McpGatewayStackProps) (t : IntegrationTargetConfig)
    (he : t.enabled = true)
    (hok : exceptOk (processTarget env gw b props t).2 = true) :
    providerNamesOf (processTarget env gw b props t).1 =
      [jsToLower (jsOr (some (stackTargetName t.type)) "integration") ++ "_api_key_" ++
        integrationUniqueId (jsOr (some (stackTargetName t.type)) "integration")] := by
  rcases processTarget_trace_ok env gw b props t he hok with
    ⟨hm, _, htr⟩ | ⟨hm, _, content, htr⟩
  · rw [htr, providerNamesOf_append, providerNamesOf_elabIT]
    simp [providerNamesOf, agentcoreProps, stackTargetName, hm]
  · rw [htr, ← List.singleton_append, providerNamesOf_append, providerNamesOf_append,
        providerNamesOf_elabIT]
    simp [providerNamesOf, customProps, stackTargetName, hm]

/-- Helper: the gateway-target registration name a successfully
processed enabled target declares is a function of its type alone. -/
theorem targetRegNamesOf_processTarget_ok (env : StackEnv) (gw : GatewayInfo) (b : String)
    (props : McpGatewayStackProps) (t : IntegrationTargetConfig)
    (he : t.enabled = true)
    (hok : exceptOk (processTarget env gw b props t).2 = true) :
    targetRegNamesOf (processTarget env gw b props t).1 =
      [jsOr (some (stackTargetName t.type)) "integration" ++ "-" ++
        integrationUniqueId (jsOr (some (stackTargetName t.type)) "integration")] := by
  rcases processTarget_trace_ok env gw b props t he hok with
    ⟨hm, hoke, htr⟩ | ⟨hm, hoke, content, htr⟩
  · rw [htr, targetRegNamesOf_append, targetRegNamesOf_elabIT_ok _ _ _ hoke]
    simp [targetRegNamesOf, agentcoreProps, stackTargetName, hm]
  · rw [htr, ← List.singleton_append, targetRegNamesOf_append, targetRegNamesOf_append,
        targetRegNamesOf_elabIT_ok _ _ _ hoke]
    simp [targetRegNamesOf, customProps, stackTargetName, hm]

/-- Helper: the schema object key a successfully processed enabled
target declares is a function of its type alone. -/
theorem schemaKeysOf_processTarget_ok (env : StackEnv) (gw : GatewayInfo) (b : String)
    (props : McpGatewayStackProps) (t : IntegrationTargetConfig)
    (he : t.enabled = true)
    (hok : exceptOk (processTarget env gw b props t).2 = true) :
    schemaKeysOf (processTarget env gw b props t).1 =
      (if jsStartsWith t.type "agentcore-" = true then []
       else [t.type ++ "-open-api.json"]) := by
  rcases processTarget_trace_ok env gw b props t he hok with
    ⟨hm, _, htr⟩ | ⟨hm, _, content, htr⟩
  · rw [htr, schemaKeysOf_append, schemaKeysOf_elabIT]
    simp [schemaKeysOf, hm]
  · rw [htr, ← List.singleton_append, schemaKeysOf_append, schemaKeysOf_append,
        schemaKeysOf_elabIT]
    simp [schemaKeysOf, hm]

/-- Helper: the schema-processor physical id a successfully processed
enabled target declares is a function of the stack name and the type. -/
theorem schemaProcessorIdsOf_processTarget_ok (env : StackEnv) (gw : GatewayInfo)
    (b : String) (props : McpGatewayStackProps) (t : IntegrationTargetConfig)
    (he : t.enabled = true)
    (hok : exceptOk (processTarget env gw b props t).2 = true) :
    schemaProcessorIdsOf (processTarget env gw b props t).1 =
      (if jsStartsWith t.type "agentcore-" = true then []
       else [schemaProcessorId env.stackName t.type]) := by
  rcases processTarget_trace_ok env gw b props t he hok with
    ⟨hm, _, htr⟩ | ⟨hm, _, content, htr⟩
  · rw [htr, schemaProcessorIdsOf_append, schemaProcessorIdsOf_elabIT]
    simp [schemaProcessorIdsOf, hm]
  · rw [htr, ← List.singleton_append, schemaProcessorIdsOf_append,
        schemaProcessorIdsOf_append, schemaProcessorIdsOf_elabIT]
    simp [schemaProcessorIdsOf, hm]

/-- C6 amended: across any two successful runs of an enabled target with
the same type — whatever the environment, gateway, bucket or other stack
props — the declared secret name, credential provider name,
gateway-target registration name and schema object key coincide; the
schema-upload physical id coincides as soon as the stack names also
coincide (it is a function of stack name and type, not of type alone). -/
theorem deterministic_id_amended (env1 env2 : StackEnv) (gw1 gw2 : GatewayInfo)
    (b1 b2 : String) (props1 props2 : McpGatewayStackProps)
    (t1 t2 : IntegrationTargetConfig)
    (hty : t1.type = t2.type)
    (he1 : t1.enabled = true) (he2 : t2.enabled = true)
    (h1 : exceptOk (processTarget env1 gw1 b1 props1 t1).2 = true)
    (h2 : exceptOk (processTarget env2 gw2 b2 props2 t2).2 = true) :
    secretNamesOf (processTarget env1 gw1 b1 props1 t1).1 =
      secretNamesOf (processTarget env2 gw2 b2 props2 t2).1 ∧
    providerNamesOf (processTarget env1 gw1 b1 props1 t1).1 =
      providerNamesOf (processTarget env2 gw2 b2 props2 t2).1 ∧
    targetRegNamesOf (processTarget env1 gw1 b1 props1 t1).1 =
      targetRegNamesOf (processTarget env2 gw2 b2 props2 t2).1 ∧
    schemaKeysOf (processTarget env1 gw1 b1 props1 t1).1 =
      schemaKeysOf (processTarget env2 gw2 b2 props2 t2).1 ∧
    (env1.stackName = env2.stackName →
      schemaProcessorIdsOf (processTarget env1 gw1 b1 props1 t1).1 =
        schemaProcessorIdsOf (processTarget env2 gw2 b2 props2 t2).1) := by
  rw [secretNamesOf_processTarget_ok env1 gw1 b1 props1 t1 he1 h1,
      secretNamesOf_processTarget_ok env2 gw2 b2 props2 t2 he2 h2,
      providerNamesOf_processTarget_ok env1 gw1 b1 props1 t1 he1 h1,
      providerNamesOf_processTarget_ok env2 gw2 b2 props2 t2 he2 h2,
      targetRegNamesOf_processTarget_ok env1 gw1 b1 props1 t1 he1 h1,
      targetRegNamesOf_processTarget_ok env2 gw2 b2 props2 t2 he2 h2,
      schemaKeysOf_processTarget_ok env1 gw1 b1 props1 t1 he1 h1,
      schemaKeysOf_processTarget_ok env2 gw2 b2 props2 t2 he2 h2,
      schemaProcessorIdsOf_processTarget_ok env1 gw1 b1 props1 t1 he1 h1,
      schemaProcessorIdsOf_processTarget_ok env2 gw2 b2 props2 t2 he2 h2,
      hty]
  exact ⟨rfl, rfl, rfl, rfl, fun hsn => by rw [hsn]⟩

/-- First concrete environment for the C6 counterexample (stack
name "StackA"). -/
def c6EnvA : StackEnv :=
  { stackName := "StackA", account := "111111111111", region := "us-east-1",
    nodeAddr := "aaaabbbb",
    templates := fun p =>
      if p = "schemas/jira-open-api.json" then some "\x7b\x7bBASE_URL\x7d\x7d/api"
      else none }

/-- Second concrete environment for the C6 counterexample: identical
configuration except the stack name "StackB". -/
def c6EnvB : StackEnv :=
  { stackName := "StackB", account := "111111111111", region := "us-east-1",
    nodeAddr := "aaaabbbb",
    templates := fun p =>
      if p = "schemas/jira-open-api.json" then some "\x7b\x7bBASE_URL\x7d\x7d/api"
      else none }

/-- The concrete custom target shared by the two C6 runs. -/
def c6Jira : IntegrationTargetConfig :=
  { type := "jira", enabled := true,
    config := { apiKey := some "k", baseUrl := some "https://jira.example.com",
                auth := none } }

/-- Concrete stack props for the C6 counterexample. -/
def c6StackProps : McpGatewayStackProps :=
  { gatewayName := some "G", gatewayDescription := some "D",
    enableSemanticSearch := some false, exceptionLevel := none,
    authenticationType := some .JWT, integrationTargets := some [c6Jira],
    agentCoreSchemasBucket := none }

/-- C6 counterexample: two runs over the same target type "jira" that
differ only in the configured stack name declare different
schema-processor physical ids, so the identifier at that cited site is
not a function of the target's type alone. -/
theorem deterministic_id_counterexample :
    c6Jira.type = c6Jira.type ∧
    c6EnvA.stackName ≠ c6EnvB.stackName ∧
    schemaProcessorIdsOf (processTarget c6EnvA gatewayResponseTokens "bkt" c6StackProps c6Jira).1 ≠
      schemaProcessorIdsOf (processTarget c6EnvB gatewayResponseTokens "bkt" c6StackProps c6Jira).1 :=
  ⟨rfl, by decide, by decide⟩

/-- Witness for the amended C6 at the two concrete runs. -/
theorem deterministic_id_amended_witness :
    (c6Jira.type = c6Jira.type ∧ c6Jira.enabled = true ∧
      exceptOk (processTarget c6EnvA gatewayResponseTokens "bkt" c6StackProps c6Jira).2 = true ∧
      exceptOk (processTarget c6EnvB gatewayResponseTokens "bkt" c6StackProps c6Jira).2 = true) ∧
    secretNamesOf (processTarget c6EnvA gatewayResponseTokens "bkt" c6StackProps c6Jira).1 =
      secretNamesOf (processTarget c6EnvB gatewayResponseTokens "bkt" c6StackProps c6Jira).1 ∧
    schemaProcessorIdsOf (processTarget c6EnvA gatewayResponseTokens "bkt" c6StackProps c6Jira).1 =
      schemaProcessorIdsOf (processTarget c6EnvA gatewayResponseTokens "x" c6StackProps c6Jira).1 :=
  ⟨⟨rfl, rfl, by decide, by decide⟩,
   (deterministic_id_amended c6EnvA c6EnvB gatewayResponseTokens gatewayResponseTokens
      "bkt" "bkt" c6StackProps c6StackProps c6Jira c6Jira rfl rfl rfl
      (by decide) (by decide)).1,
   (deterministic_id_amended c6EnvA c6EnvA gatewayResponseTokens gatewayResponseTokens
      "bkt" "x" c6StackProps c6StackProps c6Jira c6Jira rfl rfl rfl
      (by decide) (by decide)).2.2.2.2 rfl⟩
